import Mathlib

/-!
Verification of the netbox-proxmox-sync reconciliation and scanning code.

Shallow embedding conventions:
* Network environments are modelled as oracles: a function from a logical
  request (or attempt number) to the parsed response the Python code would
  observe.  `none` stands for `make_api_request` returning `None`
  (exhausted retries or a non-network exception), or for a raised
  `requests` exception in the code paths that call `session.get`/`post`
  directly.
* Server responses are assumed well formed for their endpoint (the JSON
  keys the code reads are present, and the `count` field agrees with the
  length of `results`); the oracle carries exactly the fields the code
  reads.
* Each reconciliation function returns its Python return value paired with
  the ordered trace of API requests it issued.
-/

namespace Common

/-- Outcome of one attempt of `session.request` inside `make_api_request`
(src/common.py, lines 122-158): a received HTTP response (any status,
modelled by its status code), a `requests.exceptions.Timeout`, a
`requests.exceptions.ConnectionError`, or any other exception. -/
inductive Attempt where
  | resp (status : Nat)
  | timeout
  | connError
  | exc
  deriving DecidableEq, Repr

/-- An attempt outcome on which the code's `except` clauses retry. -/
def Attempt.transient : Attempt → Bool
  | .timeout => true
  | .connError => true
  | _ => false

/-- The retry loop of `make_api_request`: `fuel` is the number of loop
iterations still available (`retry_count - attempt + 1`), `a` the current
1-based attempt number.  Returns the Python return value (`some status`
for a received response, `none` for `return None`) and the number of
attempts actually made. -/
def apiGo (outcomes : Nat → Attempt) : Nat → Nat → Option Nat × Nat
  | 0, a => (none, a - 1)
  | fuel + 1, a =>
    match outcomes a with
    | .resp s => (some s, a)
    | .exc => (none, a)
    | .timeout => if fuel = 0 then (none, a) else apiGo outcomes fuel (a + 1)
    | .connError => if fuel = 0 then (none, a) else apiGo outcomes fuel (a + 1)

/-- Model of `make_api_request(session, method, url, headers, timeout, retry_count)`
from src/common.py: `for attempt in range(1, retry_count + 1)` around one
`session.request` call.  `outcomes k` is what attempt `k` does. -/
def make_api_request (outcomes : Nat → Attempt) (retry_count : Nat) : Option Nat × Nat :=
  apiGo outcomes retry_count 1

end Common

namespace Scan

/-- Outcome of one TCP probe of (host, port) as the Python socket layer
presents it: `conn n` is `connect_ex` returning errno `n` (0 means the
connection was established); `sockErr` is a raised `socket.gaierror` or
`socket.error` (DNS failure, and `OSError`s escaping `connect_ex`);
`otherErr` is any raised exception that is not a `socket.error` — CPython
deterministically raises such an error (`OverflowError`) for a port
outside 0..65535 before any network traffic. -/
inductive ProbeOut where
  | conn (errno : Nat)
  | sockErr
  | otherErr
  deriving DecidableEq, Repr

/-- A probe environment: one snapshot of the network, giving each
(host, port) probe a deterministic outcome. -/
def ProbeEnv := String → Nat → ProbeOut

/-- Model of `PortScanner.scan_port` (src/port_scanner.py, lines 29-48): returns
`connect_ex(...) == 0`; its `except` clause catches only
`(socket.gaierror, socket.error)` and returns `False`; any other raised
exception propagates to the caller (`.error ()`). -/
def PortScanner_scan_port (probe : ProbeEnv) (host : String) (port : Nat) :
    Except Unit Bool :=
  match probe host port with
  | .conn n => .ok (n == 0)
  | .sockErr => .ok false
  | .otherErr => .error ()

/-- Model of `NetworkScanner.ping_host` (src/network_scanner.py, lines 33-72):
tries ports 22, 80, 443 in order inside one `try` whose `except Exception`
returns `False`; a raised exception at any probe aborts the remaining
probes. -/
def NetworkScanner_ping_host (probe : ProbeEnv) (ip : String) : Except Unit Bool :=
  match probe ip 22 with
  | .conn 0 => .ok true
  | .conn _ =>
    match probe ip 80 with
    | .conn 0 => .ok true
    | .conn _ =>
      match probe ip 443 with
      | .conn n => .ok (n == 0)
      | _ => .ok false
    | _ => .ok false
  | _ => .ok false

/-- Model of `PortScanningIntegration.scan_port`
(src/port_scanning_integration.py, lines 57-76): same probe, but its
`except Exception` clause collapses every raised exception to `False`. -/
def PSI_scan_port (probe : ProbeEnv) (host : String) (port : Nat) :
    Except Unit Bool :=
  match probe host port with
  | .conn n => .ok (n == 0)
  | _ => .ok false

/-- The value `scan_ports` records for one port: the probe result, with a
raised exception caught by the `except` around `future.result()` and
recorded as `False`. -/
def portEntry (probe : ProbeEnv) (host : String) (port : Nat) : Bool :=
  match PortScanner_scan_port probe host port with
  | .ok b => b
  | .error _ => false

/-- Model of `PortScanner.scan_ports` (src/port_scanner.py, lines 50-83):
`ThreadPoolExecutor(max_workers=min(self.max_threads, len(ports)))` raises
`ValueError` when that bound is 0 (in particular for an empty port list);
otherwise one probe per port is submitted and the result dictionary maps
each distinct requested port to its entry (`False` when the probe failed
or its future raised).  The dictionary is modelled as an association list
keyed by the deduplicated ports; Python's completion-order key order is
abstracted away. -/
def PortScanner_scan_ports (probe : ProbeEnv) (max_threads : Nat) (host : String)
    (ports : List Nat) : Except Unit (List (Nat × Bool)) :=
  if min max_threads ports.length = 0 then .error ()
  else .ok (ports.dedup.map fun p => (p, portEntry probe host p))

/-- Model of `PortScanner.scan_hosts` (src/port_scanner.py, lines 85-112): one
`scan_ports` task per host on a pool of `max_threads` workers; a task
whose `future.result()` raises is recorded as `{}` for that host, and the
result keeps one entry per input host.  Input hosts are a Python dict,
so the host keys are assumed distinct. -/
def PortScanner_scan_hosts (probe : ProbeEnv) (max_threads : Nat)
    (hosts : List (String × List Nat)) : Except Unit (List (String × List (Nat × Bool))) :=
  if max_threads = 0 then .error ()
  else .ok (hosts.map fun hp =>
    (hp.1, match PortScanner_scan_ports probe max_threads hp.1 hp.2 with
           | .ok m => m
           | .error _ => []))

end Scan

/-- A probe environment with no listening ports: every in-range probe
returns a nonzero errno; an out-of-range port raises a non-socket error
(CPython's deterministic behaviour before any network traffic). -/
def Scan.probeClosed : Scan.ProbeEnv := fun _ port =>
  if 65535 < port then .otherErr else .conn 1

namespace NbSync

/-- The logical API requests the VM reconciliation chain can issue
(src/nb_vm.py, src/nb_interfaces.py, src/nb_ip.py).  `svcCreate` is the
catalog's service-creation endpoint (src/nb_services.py); the VM sync
chain never issues it. -/
inductive Req where
  | vmSearch (name : String) (cluster_id : Nat)
  | vmCreate (name : String) (cluster_id : Nat) (status : String) (comments : String)
  | vmPatchStatus (vm_id : Nat) (status : String)
  | vmPatchResources (vm_id : Nat) (vcpus memory disk : Option Nat)
  | ifaceSearch (vm_id : Nat) (name : String)
  | ifaceCreate (vm_id : Nat) (name : String) (description : String)
  | macSearch (mac : String) (iface_id : Nat)
  | macCreate (mac : String) (iface_id : Nat)
  | ifaceDetail (iface_id : Nat)
  | ifacePatchPrimaryMac (iface_id : Nat) (mac_id : Nat)
  | ipSearch (q : String)
  | ipCreate (address : String)
  | ipPatchAssign (ip_id : Nat) (iface_id : Nat)
  | vmPatchPrimaryIp (vm_id : Nat) (ip_id : Nat)
  | svcCreate (ip_id : Nat) (port : Nat)
  deriving DecidableEq, Repr

/-- A POST or PATCH — a catalog mutation. -/
def Req.isMutating : Req → Bool
  | .vmSearch .. | .ifaceSearch .. | .macSearch .. | .ifaceDetail .. | .ipSearch .. => false
  | _ => true

/-- A create (POST). -/
def Req.isCreate : Req → Bool
  | .vmCreate .. | .ifaceCreate .. | .macCreate .. | .ipCreate .. | .svcCreate .. => true
  | _ => false

/-- A MAC-binding stage request. -/
def Req.isMacBinding : Req → Bool
  | .macSearch .. | .macCreate .. | .ifaceDetail .. | .ifacePatchPrimaryMac .. => true
  | _ => false

/-- An IP-assignment stage request. -/
def Req.isIpStage : Req → Bool
  | .ipSearch .. | .ipCreate .. | .ipPatchAssign .. | .vmPatchPrimaryIp .. => true
  | _ => false

/-- A service stage request. -/
def Req.isService : Req → Bool
  | .svcCreate .. => true
  | _ => false

/-- Response of a filtered-GET collection endpoint: the status code and
the ids of the `results` entries (the `count` field the code sometimes
reads is assumed to equal `results`' length). -/
structure ListResp where
  status_code : Nat
  ids : List Nat
  deriving DecidableEq, Repr

/-- Response of a POST: status code and the created object's `id`. -/
structure CreateResp where
  status_code : Nat
  id : Nat
  deriving DecidableEq, Repr

/-- Response of `GET /api/virtualization/interfaces/{id}/`:
`primary_mac_address` is either a dict holding an `id` or null. -/
structure DetailResp where
  status_code : Nat
  primary_mac_id : Option Nat
  deriving DecidableEq, Repr

/-- An IP-address object as the code reads it: `id`, `address`,
`assigned_object_type`, `assigned_object_id`. -/
structure IpObj where
  id : Nat
  address : String
  assigned_object_type : Option String
  assigned_object_id : Option Nat
  deriving DecidableEq, Repr

/-- Response of `GET /api/ipam/ip-addresses/?q=...`. -/
structure IpListResp where
  status_code : Nat
  results : List IpObj
  deriving DecidableEq, Repr

/-- Response of `POST /api/ipam/ip-addresses/`: the created object. -/
structure IpCreateResp where
  status_code : Nat
  obj : IpObj
  deriving DecidableEq, Repr

/-- Response carrying only a status code (checked PATCHes). -/
structure StatusResp where
  status_code : Nat
  deriving DecidableEq, Repr

/-- The catalog as a response oracle: for each logical request, the value
`make_api_request` hands back (`none` = network failure / `None`).  The
status-update and resource-update PATCHes of `get_or_create_vm` and the
`primary_mac_address` PATCH of `ensure_vm_interface_with_mac` have their
replies ignored by the code, so the oracle does not model them. -/
structure Env where
  vmSearch : String → Nat → Option ListResp
  vmCreate : String → Nat → String → String → Option CreateResp
  ifaceSearch : Nat → String → Option ListResp
  ifaceCreate : Nat → String → String → Option CreateResp
  macSearch : String → Nat → Option ListResp
  macCreate : String → Nat → Option CreateResp
  ifaceDetail : Nat → Option DetailResp
  ipSearch : String → Option IpListResp
  ipCreate : String → Option IpCreateResp
  ipPatchAssign : Nat → Nat → Option StatusResp
  vmPatchPrimaryIp : Nat → Nat → Option StatusResp

/-- Python truthiness of an optional string: `None` and `""` are falsy. -/
def truthyS : Option String → Option String
  | some s => if s = "" then none else some s
  | none => none

/-- The characters of a string before the first `/` —
`ip_address.split('/')[0]`. -/
def firstSlashPart (s : String) : String :=
  String.mk (s.toList.takeWhile (· ≠ '/'))

/-- Model of `validate_ip_address` (src/nb_ip.py, lines 13-21): feeds the part
before the first `/` to `ipaddress.ip_address` and returns whether that
succeeded.  The stdlib parser is external to the repository and is
modelled by the predicate `ipValid`. -/
def validate_ip_address (ipValid : String → Bool) (ip_address : String) : Bool :=
  ipValid (firstSlashPart ip_address)

/-- The `primary_mac_address` tail of `ensure_vm_interface_with_mac`
(src/nb_interfaces.py, lines 128-165): fetch the interface detail, PATCH
`primary_mac_address` unless it already equals `mac_id`; every path
returns the interface id. -/
def primaryMacPhase (env : Env) (iface_id mac_id : Nat) (acc : List Req) :
    Option Nat × List Req :=
  let t1 := acc ++ [Req.ifaceDetail iface_id]
  match env.ifaceDetail iface_id with
  | none => (some iface_id, t1)
  | some r =>
    if r.status_code ≠ 200 then (some iface_id, t1)
    else if r.primary_mac_id = some mac_id then (some iface_id, t1)
    else (some iface_id, t1 ++ [Req.ifacePatchPrimaryMac iface_id mac_id])

/-- The MAC-binding middle of `ensure_vm_interface_with_mac`
(src/nb_interfaces.py, lines 79-126): search the MAC binding for this
interface, create it when absent; every failure here still returns the
interface id. -/
def macPhase (env : Env) (m : String) (iface_id : Nat) (acc : List Req) :
    Option Nat × List Req :=
  let t1 := acc ++ [Req.macSearch m iface_id]
  match env.macSearch m iface_id with
  | none => (some iface_id, t1)
  | some r =>
    if r.status_code ≠ 200 then (some iface_id, t1)
    else
      match r.ids.head? with
      | some mac_id => primaryMacPhase env iface_id mac_id t1
      | none =>
        let t2 := t1 ++ [Req.macCreate m iface_id]
        match env.macCreate m iface_id with
        | none => (some iface_id, t2)
        | some c =>
          if c.status_code = 200 ∨ c.status_code = 201 then
            primaryMacPhase env iface_id c.id t2
          else (some iface_id, t2)

/-- Model of `ensure_vm_interface_with_mac` (src/nb_interfaces.py, lines 13-165):
skip without requests when the MAC is falsy; look the interface up by
(vm, name), create it when absent; then bind the MAC and set
`primary_mac_address`.  Returns the interface id (or `None`) and the
request trace. -/
def ensure_vm_interface_with_mac (env : Env) (vm_id : Nat) (eth_name : String)
    (mac : Option String) : Option Nat × List Req :=
  match truthyS mac with
  | none => (none, [])
  | some m =>
    let t0 := [Req.ifaceSearch vm_id eth_name]
    match env.ifaceSearch vm_id eth_name with
    | none => (none, t0)
    | some r =>
      if r.status_code ≠ 200 then (none, t0)
      else
        match r.ids.head? with
        | some iface_id => macPhase env m iface_id t0
        | none =>
          let t1 := t0 ++ [Req.ifaceCreate vm_id eth_name ("MAC: " ++ m)]
          match env.ifaceCreate vm_id eth_name ("MAC: " ++ m) with
          | none => (none, t1)
          | some c =>
            if c.status_code = 200 ∨ c.status_code = 201 then macPhase env m c.id t1
            else (none, t1)

/-- The assignment tail of `ensure_ip_on_interface_and_vm`
(src/nb_ip.py, lines 99-160): PATCH the interface assignment when the
current one differs, then unconditionally PATCH the VM's `primary_ip4`. -/
def ipAssignPhase (env : Env) (vm_id iface_id : Nat) (ipo : IpObj) (acc : List Req) :
    Option Nat × List Req :=
  let ip_id := ipo.id
  let needs_update :=
    ipo.assigned_object_type ≠ some "virtualization.vminterface" ∨
      ipo.assigned_object_id ≠ some iface_id
  let (okAssign, t1) :=
    if needs_update then
      let t := acc ++ [Req.ipPatchAssign ip_id iface_id]
      match env.ipPatchAssign ip_id iface_id with
      | none => (false, t)
      | some r => (r.status_code = 200 ∨ r.status_code = 201, t)
    else (true, acc)
  if okAssign then
    let t2 := t1 ++ [Req.vmPatchPrimaryIp vm_id ip_id]
    match env.vmPatchPrimaryIp vm_id ip_id with
    | none => (none, t2)
    | some r =>
      if r.status_code = 200 ∨ r.status_code = 201 then (some ip_id, t2) else (none, t2)
  else (none, t1)

/-- Model of `ensure_ip_on_interface_and_vm` (src/nb_ip.py, lines 24-160): bail out
before any request on a falsy or invalid IP string; search by `q`, picking
the first result whose address (up to `/`) matches; create the IP when no
candidate matches; then run the assignment tail. -/
def ensure_ip_on_interface_and_vm (ipValid : String → Bool) (env : Env)
    (vm_id iface_id : Nat) (ip_address : String) : Option Nat × List Req :=
  if ip_address = "" then (none, [])
  else if ¬ validate_ip_address ipValid ip_address then (none, [])
  else
    let t0 := [Req.ipSearch ip_address]
    match env.ipSearch ip_address with
    | none => (none, t0)
    | some r =>
      if r.status_code ≠ 200 then (none, t0)
      else
        let search_addr := firstSlashPart ip_address
        match r.results.find? (fun c => firstSlashPart c.address = search_addr) with
        | some ipo => ipAssignPhase env vm_id iface_id ipo t0
        | none =>
          let t1 := t0 ++ [Req.ipCreate ip_address]
          match env.ipCreate ip_address with
          | none => (none, t1)
          | some c =>
            if c.status_code = 200 ∨ c.status_code = 201 then
              ipAssignPhase env vm_id iface_id c.obj t1
            else (none, t1)

/-- One VM/container dict as built by `get_proxmox_vms`
(src/netbox-sync.py): `vcpus`/`memory_mb`/`disk_gb` use 0 for a
falsy/absent value, mirroring the code's truthiness tests. -/
structure VMDict where
  name : String
  status : String
  description : String
  vcpus : Nat
  memory_mb : Nat
  disk_gb : Nat
  mac_addr : Option String
  ip_addr : Option String
  deriving DecidableEq, Repr

/-- The tail of `get_or_create_vm` after the VM id is known
(src/nb_vm.py, lines 94-142): an unconditional resources PATCH whenever
any of vcpus/memory/disk is truthy, then the interface stage, then —
only when the interface stage returned an id (a truthy one) and the VM
has a truthy IP — the IP stage.  Returns `True` regardless of those
stages' outcomes. -/
def afterVm (ipValid : String → Bool) (env : Env) (vm : VMDict) (vm_id : Nat)
    (acc : List Req) : Bool × List Req :=
  let vcpus? := if vm.vcpus ≠ 0 then some vm.vcpus else none
  let mem? := if vm.memory_mb ≠ 0 then some vm.memory_mb else none
  let disk? := if vm.disk_gb > 0 then some (vm.disk_gb * 1024) else none
  let t1 :=
    if vcpus?.isSome ∨ mem?.isSome ∨ disk?.isSome then
      acc ++ [Req.vmPatchResources vm_id vcpus? mem? disk?]
    else acc
  let res := ensure_vm_interface_with_mac env vm_id "eth0" vm.mac_addr
  let t2 := t1 ++ res.2
  match res.1, truthyS vm.ip_addr with
  | some iface_id, some ip =>
    if iface_id ≠ 0 then
      (true, t2 ++ (ensure_ip_on_interface_and_vm ipValid env vm_id iface_id ip).2)
    else (true, t2)
  | _, _ => (true, t2)

/-- Model of `get_or_create_vm` (src/nb_vm.py, lines 15-142): search by
(name, cluster); when found, PATCH the status unconditionally (the reply
is ignored); when absent, POST a create; then run `afterVm`. -/
def get_or_create_vm (ipValid : String → Bool) (env : Env) (cluster_id : Nat)
    (vm : VMDict) : Bool × List Req :=
  let t0 := [Req.vmSearch vm.name cluster_id]
  match env.vmSearch vm.name cluster_id with
  | none => (false, t0)
  | some r =>
    if r.status_code ≠ 200 then (false, t0)
    else
      match r.ids.head? with
      | some vm_id => afterVm ipValid env vm vm_id (t0 ++ [Req.vmPatchStatus vm_id vm.status])
      | none =>
        let t1 := t0 ++ [Req.vmCreate vm.name cluster_id vm.status vm.description]
        match env.vmCreate vm.name cluster_id vm.status vm.description with
        | none => (false, t1)
        | some c =>
          if c.status_code = 200 ∨ c.status_code = 201 then afterVm ipValid env vm c.id t1
          else (false, t1)

/-- The sync loop of `main` (src/netbox-sync.py, lines 467-476):
`sum(1 for vm in vms if get_or_create_vm(...))` — each entity is
reconciled independently, in order. -/
def sync_vms (ipValid : String → Bool) (env : Env) (cluster_id : Nat)
    (vms : List VMDict) : List (Bool × List Req) :=
  vms.map (get_or_create_vm ipValid env cluster_id)

end NbSync

namespace SyncMain

/-- Python `str.strip()` on a character list. -/
def stripChars (cs : List Char) : List Char :=
  ((cs.dropWhile Char.isWhitespace).reverse.dropWhile Char.isWhitespace).reverse

/-- Python `str.split(sep)` for a one-character separator: splits at every
occurrence and keeps empty pieces (`"".split(',') == ['']`). -/
def splitOnChar (sep : Char) : List Char → List (List Char)
  | [] => [[]]
  | c :: cs =>
    let r := splitOnChar sep cs
    if c = sep then [] :: r
    else
      match r with
      | [] => [[c]]
      | h :: t => (c :: h) :: t

/-- Numeric value of a digit list. -/
def digitsVal (cs : List Char) : Nat :=
  cs.foldl (fun n c => n * 10 + (c.toNat - '0'.toNat)) 0

/-- Python `int(str)` restricted to ASCII decimal: optional surrounding
whitespace, optional single sign, then digits; `none` models a raised
`ValueError`.  (Underscore digit separators are not modelled.) -/
def pyInt? (cs : List Char) : Option Int :=
  match stripChars cs with
  | [] => none
  | c :: rest =>
    if c = '-' then
      if rest ≠ [] ∧ rest.all Char.isDigit then some (-(digitsVal rest : Int)) else none
    else if c = '+' then
      if rest ≠ [] ∧ rest.all Char.isDigit then some (digitsVal rest : Int) else none
    else if (c :: rest).all Char.isDigit then some (digitsVal (c :: rest) : Int)
    else none

/-- Python `range(s, e)` over integers, as a list. -/
def intRange (s e : Int) : List Int :=
  (List.range (e - s).toNat).map (fun i => s + (i : Int))

/-- One comma-separated piece of the ports string: stripped, a `start-end`
range when it contains `-` (exactly one split expected, otherwise the
unpacking raises), a single port otherwise; `none` models any raised
exception. -/
def parsePart (part : List Char) : Option (List Int) :=
  let p := stripChars part
  if p.contains '-' then
    match splitOnChar '-' p with
    | [a, b] => do
      let s ← pyInt? a
      let e ← pyInt? b
      pure (intRange s (e + 1))
    | _ => none
  else (pyInt? p).map (fun n => [n])

/-- Insertion into a sorted list of integers. -/
def insSorted (x : Int) : List Int → List Int
  | [] => [x]
  | y :: ys => if x ≤ y then x :: y :: ys else y :: insSorted x ys

/-- Python `sorted(...)` for integers. -/
def sortInts (l : List Int) : List Int := l.foldr insSorted []

/-- Python `list(set(...))` keeping first occurrences. -/
def dedupInts (l : List Int) : List Int :=
  l.foldl (fun acc x => if x ∈ acc then acc else acc ++ [x]) []

/-- Model of `parse_ports_from_string` (src/netbox-sync.py, lines 98-120): split on
commas, parse each piece (single port or `start-end` range), return the
sorted deduplicated ports — but on ANY parse failure the `except` clause
discards everything and returns the default `[22, 80, 443]`. -/
def parse_ports_from_string (ports_str : String) : List Int :=
  match ((splitOnChar ',' ports_str.toList).mapM parsePart) with
  | some ls => sortInts (dedupInts ls.flatten)
  | none => [22, 80, 443]

end SyncMain

namespace Discovered

/-- Requests issued by `NetBoxDeviceManager`
(src/nb_discovered_hosts.py) while resolving or creating one discovered
device. -/
inductive DReq where
  | deviceSearch (name : String)
  | ipAddrSearch (address : String)
  | ifaceGet (iface_id : Nat)
  | deviceCreate (name : String) (device_type site : Nat) (status description : String)
  deriving DecidableEq, Repr

/-- A POST — a catalog mutation. -/
def DReq.isCreate : DReq → Bool
  | .deviceCreate .. => true
  | _ => false

/-- An IP-address object as `_get_device_by_ip` reads it:
`assigned_object` is modelled by the `id` inside the dict when present. -/
structure DIpObj where
  id : Nat
  assigned_object_id : Option Nat
  assigned_object_type : Option String
  assigned_object : Option Nat
  deriving DecidableEq, Repr

/-- Response of `GET /api/ipam/ip-addresses/?address=...`. -/
structure DIpListResp where
  status_code : Nat
  results : List DIpObj
  deriving DecidableEq, Repr

/-- Response of `GET /api/dcim/interfaces/{id}/`: the owning device's id
(`interface.get('device', {}).get('id')`). -/
structure DIfaceResp where
  status_code : Nat
  device_id : Option Nat
  deriving DecidableEq, Repr

/-- Response of `GET /api/dcim/devices/?name=...`. -/
structure DListResp where
  status_code : Nat
  ids : List Nat
  deriving DecidableEq, Repr

/-- Response of `POST /api/dcim/devices/`. -/
structure DCreateResp where
  status_code : Nat
  id : Nat
  deriving DecidableEq, Repr

/-- The catalog oracle for the device manager; `none` models a raised
`requests` exception on that call (the direct `session.get`/`post` calls
here have no retry wrapper). -/
structure DEnv where
  deviceSearch : String → Option DListResp
  ipAddrSearch : String → Option DIpListResp
  ifaceGet : Nat → Option DIfaceResp
  deviceCreate : String → Nat → Nat → String → String → Option DCreateResp

/-- Lower-case a string (ASCII), as `str.lower()` does on these inputs. -/
def lowerStr (s : String) : String := String.mk (s.toList.map Char.toLower)

/-- Python `str(x)` of an optional string: `None` prints as `"None"`. -/
def pyStrOpt : Option String → String
  | none => "None"
  | some s => s

/-- Whether `nee` occurs as a contiguous substring starting at the head of the haystack. -/
def chHasAt : List Char → List Char → Bool
  | [], _ => true
  | _ :: _, [] => false
  | a :: as, b :: bs => a == b && chHasAt as bs

/-- Does `nee` occur at some position of `hay`? -/
def chContains (hay nee : List Char) : Bool :=
  match hay with
  | [] => nee.isEmpty
  | _ :: t => chHasAt nee hay || chContains t nee

/-- Python `'device' in str(assigned_object_type).lower()`. -/
def typeMentionsDevice (t : Option String) : Bool :=
  chContains (lowerStr (pyStrOpt t)).toList "device".toList

/-- The fallback branch of `_get_device_by_ip`
(src/nb_discovered_hosts.py, lines 76-81): a truthy `assigned_object`
whose type string mentions "device" yields that object's truthy id. -/
def devByIpFallback (ipo : DIpObj) (acc : List DReq) : Option Nat × List DReq :=
  match ipo.assigned_object with
  | some d =>
    if typeMentionsDevice ipo.assigned_object_type ∧ d ≠ 0 then (some d, acc)
    else (none, acc)
  | none => (none, acc)

/-- Model of `NetBoxDeviceManager._get_device_by_ip`
(src/nb_discovered_hosts.py, lines 39-86): look the IP up in IPAM; when
its assignment is a `dcim.interface`, fetch the interface and return its
owning device id; otherwise (or when that path yields nothing) fall back
to the `assigned_object` check; a raised exception anywhere returns
`None`. -/
def get_device_by_ip (env : DEnv) (ip_address : String) : Option Nat × List DReq :=
  let t0 := [DReq.ipAddrSearch ip_address]
  match env.ipAddrSearch ip_address with
  | none => (none, t0)
  | some r =>
    if r.status_code ≠ 200 then (none, t0)
    else
      match r.results.head? with
      | none => (none, t0)
      | some ipo =>
        match ipo.assigned_object_id with
        | some aid =>
          if aid ≠ 0 ∧ ipo.assigned_object_type = some "dcim.interface" then
            let t1 := t0 ++ [DReq.ifaceGet aid]
            match env.ifaceGet aid with
            | none => (none, t1)
            | some ir =>
              if ir.status_code = 200 then
                match ir.device_id with
                | some d => if d ≠ 0 then (some d, t1) else devByIpFallback ipo t1
                | none => devByIpFallback ipo t1
              else devByIpFallback ipo t1
          else devByIpFallback ipo t0
        | none => devByIpFallback ipo t0

/-- Model of `NetBoxDeviceManager._get_existing_device`
(src/nb_discovered_hosts.py, lines 88-117): check 1 by device name (an
exception or a miss falls through), check 2 by IP-address traversal. -/
def get_existing_device (env : DEnv) (device_name ip_address : String) :
    Option Nat × List DReq :=
  let t0 := [DReq.deviceSearch device_name]
  let byName : Option Nat :=
    match env.deviceSearch device_name with
    | none => none
    | some r => if r.status_code = 200 then r.ids.head? else none
  match byName with
  | some did => (some did, t0)
  | none =>
    let res := get_device_by_ip env ip_address
    (res.1, t0 ++ res.2)

/-- Replace `.` by `-` (used for the default device name). -/
def dotsToDashes (s : String) : String :=
  String.mk (s.toList.map fun c => if c = '.' then '-' else c)

/-- One discovered host as `create_discovered_device` reads it. -/
structure HostInfo where
  ip : String
  name : Option String
  open_ports : List Nat
  services : List (String × String)
  deriving DecidableEq, Repr

/-- Python `str` of a list of ints, e.g. `"[22, 80]"`. -/
def pyIntListStr (l : List Nat) : String :=
  "[" ++ String.intercalate ", " (l.map toString) ++ "]"

/-- The description `create_discovered_device` builds. -/
def mkDescription (h : HostInfo) : String :=
  "IP: " ++ h.ip ++ " | Open Ports: " ++ pyIntListStr h.open_ports ++
    " | Services: " ++
    String.intercalate ", " (h.services.map fun sv => sv.1 ++ " (" ++ sv.2 ++ ")")

/-- Model of `NetBoxDeviceManager.create_discovered_device`
(src/nb_discovered_hosts.py, lines 233-286): resolve an existing device
by name or IP and return its id without writing; otherwise POST a create;
a non-2xx create response returns `None` with no further request. -/
def create_discovered_device (env : DEnv) (h : HostInfo)
    (site_id device_type_id : Nat) : Option Nat × List DReq :=
  let device_name := h.name.getD ("host-" ++ dotsToDashes h.ip)
  let res := get_existing_device env device_name h.ip
  match res.1 with
  | some did => (some did, res.2)
  | none =>
    let desc := mkDescription h
    let t1 := res.2 ++ [DReq.deviceCreate device_name device_type_id site_id "active" desc]
    match env.deviceCreate device_name device_type_id site_id "active" desc with
    | none => (none, t1)
    | some c =>
      if c.status_code = 200 ∨ c.status_code = 201 then (some c.id, t1) else (none, t1)

end Discovered

namespace NbSync

/-- A request belonging to one of the stages that depend on the interface
stage: MAC binding, IP assignment, or service creation. -/
def Req.isDependentStage (q : Req) : Bool :=
  q.isMacBinding || q.isIpStage || q.isService

end NbSync

/-- A concrete oracle for the C9 witness: the VM search finds id 5, the
interface search hits a network failure (`make_api_request` returns
`None`), so the interface stage fails. -/
def envIfaceDown : NbSync.Env :=
  { vmSearch := fun _ _ => some ⟨200, [5]⟩,
    vmCreate := fun _ _ _ _ => none,
    ifaceSearch := fun _ _ => none,
    ifaceCreate := fun _ _ _ => none,
    macSearch := fun _ _ => none,
    macCreate := fun _ _ => none,
    ifaceDetail := fun _ => none,
    ipSearch := fun _ => none,
    ipCreate := fun _ => none,
    ipPatchAssign := fun _ _ => none,
    vmPatchPrimaryIp := fun _ _ => none }

/-- One concrete VM dict used by witnesses and counterexamples. -/
def vmWeb : NbSync.VMDict :=
  { name := "web01", status := "active", description := "",
    vcpus := 2, memory_mb := 2048, disk_gb := 10,
    mac_addr := some "aa:bb:cc:dd:ee:ff", ip_addr := some "10.0.0.5" }

/-- A concrete oracle where the VM name search misses and the create is
answered with 409 Conflict. -/
def env409 : NbSync.Env :=
  { vmSearch := fun _ _ => some ⟨200, []⟩,
    vmCreate := fun _ _ _ _ => some ⟨409, 0⟩,
    ifaceSearch := fun _ _ => none,
    ifaceCreate := fun _ _ _ => none,
    macSearch := fun _ _ => none,
    macCreate := fun _ _ => none,
    ifaceDetail := fun _ => none,
    ipSearch := fun _ => none,
    ipCreate := fun _ => none,
    ipPatchAssign := fun _ _ => none,
    vmPatchPrimaryIp := fun _ _ => none }

/-- A concrete device-manager oracle where both lookups miss and the
device create is answered with 409 Conflict. -/
def denvConflict : Discovered.DEnv :=
  { deviceSearch := fun _ => some ⟨200, []⟩,
    ipAddrSearch := fun _ => some ⟨200, []⟩,
    ifaceGet := fun _ => none,
    deviceCreate := fun _ _ _ _ _ => some ⟨409, 0⟩ }

/-- A concrete discovered host. -/
def hostA : Discovered.HostInfo :=
  { ip := "10.0.0.9", name := some "disc01",
    open_ports := [22], services := [("SSH", "tcp")] }

/-- A concrete oracle where the VM name search misses while the catalog
does hold the entity's IP, already assigned to an interface — the entity
is discoverable under its IP key. -/
def envC3 : NbSync.Env :=
  { vmSearch := fun _ _ => some ⟨200, []⟩,
    vmCreate := fun _ _ _ _ => some ⟨201, 42⟩,
    ifaceSearch := fun _ _ => none,
    ifaceCreate := fun _ _ _ => none,
    macSearch := fun _ _ => none,
    macCreate := fun _ _ => none,
    ifaceDetail := fun _ => none,
    ipSearch := fun _ =>
      some ⟨200, [⟨33, "10.0.0.5/24", some "virtualization.vminterface", some 9⟩]⟩,
    ipCreate := fun _ => none,
    ipPatchAssign := fun _ _ => none,
    vmPatchPrimaryIp := fun _ _ => none }

/-- A device-manager oracle where the name search finds device 7. -/
def denvNameHit : Discovered.DEnv :=
  { deviceSearch := fun _ => some ⟨200, [7]⟩,
    ipAddrSearch := fun _ => none,
    ifaceGet := fun _ => none,
    deviceCreate := fun _ _ _ _ _ => none }

/-- A device-manager oracle where the name search misses but the IP is
assigned to interface 5 of device 7. -/
def denvIpHit : Discovered.DEnv :=
  { deviceSearch := fun _ => some ⟨200, []⟩,
    ipAddrSearch := fun _ => some ⟨200, [⟨33, some 5, some "dcim.interface", none⟩]⟩,
    ifaceGet := fun _ => some ⟨200, some 7⟩,
    deviceCreate := fun _ _ _ _ _ => none }

/-- A concrete converged oracle: the VM (id 7), its interface (id 5), its
MAC binding (id 11, already the primary MAC) and its IP (id 33, already
assigned to interface 5) all exist exactly as desired.  Note that
`get_or_create_vm` never reads the existing VM's status, vcpus, memory or
disk, so no oracle answer could even inform a diff. -/
def envC1 : NbSync.Env :=
  { vmSearch := fun _ _ => some ⟨200, [7]⟩,
    vmCreate := fun _ _ _ _ => none,
    ifaceSearch := fun _ _ => some ⟨200, [5]⟩,
    ifaceCreate := fun _ _ _ => none,
    macSearch := fun _ _ => some ⟨200, [11]⟩,
    macCreate := fun _ _ => none,
    ifaceDetail := fun _ => some ⟨200, some 11⟩,
    ipSearch := fun _ =>
      some ⟨200, [⟨33, "10.0.0.5/32", some "virtualization.vminterface", some 5⟩]⟩,
    ipCreate := fun _ => none,
    ipPatchAssign := fun _ _ => some ⟨200⟩,
    vmPatchPrimaryIp := fun _ _ => some ⟨200⟩ }

namespace Common

theorem apiGo_attempts_le (outcomes : Nat → Attempt) :
    ∀ fuel a, (apiGo outcomes fuel a).2 ≤ a + fuel - 1 := by
  intro fuel
  induction fuel with
  | zero => intro a; simp [apiGo]
  | succ n ih =>
    intro a
    simp only [apiGo]
    cases h : outcomes a with
    | resp s => simp
    | exc => simp
    | timeout =>
      by_cases hn : n = 0
      · simp [hn]
      · simp only [hn, if_false]
        have := ih (a + 1)
        omega
    | connError =>
      by_cases hn : n = 0
      · simp [hn]
      · simp only [hn, if_false]
        have := ih (a + 1)
        omega

theorem apiGo_resp (outcomes : Nat → Attempt) :
    ∀ fuel a k s, k < fuel →
      (∀ j, j < k → (outcomes (a + j)).transient = true) →
      outcomes (a + k) = .resp s →
      apiGo outcomes fuel a = (some s, a + k) := by
  intro fuel
  induction fuel with
  | zero => intro a k s hk; omega
  | succ n ih =>
    intro a k s hk htr hresp
    cases k with
    | zero =>
      simp only [Nat.add_zero] at hresp
      simp [apiGo, hresp]
    | succ m =>
      have h0 : (outcomes (a + 0)).transient = true := htr 0 (by omega)
      simp only [Nat.add_zero] at h0
      have hn : n ≠ 0 := by omega
      have step : apiGo outcomes (n + 1) a = apiGo outcomes n (a + 1) := by
        simp only [apiGo]
        cases ho : outcomes a with
        | resp s' => rw [ho] at h0; simp [Attempt.transient] at h0
        | exc => rw [ho] at h0; simp [Attempt.transient] at h0
        | timeout => simp [hn]
        | connError => simp [hn]
      rw [step]
      have := ih (a + 1) m s (by omega)
        (fun j hj => by
          have := htr (j + 1) (by omega)
          simpa [Nat.add_assoc, Nat.add_comm 1 j] using this)
        (by simpa [Nat.add_assoc, Nat.add_comm 1 m] using hresp)
      simpa [Nat.add_assoc, Nat.add_comm 1 m] using this

theorem apiGo_exc (outcomes : Nat → Attempt) :
    ∀ fuel a k, k < fuel →
      (∀ j, j < k → (outcomes (a + j)).transient = true) →
      outcomes (a + k) = .exc →
      apiGo outcomes fuel a = (none, a + k) := by
  intro fuel
  induction fuel with
  | zero => intro a k hk; omega
  | succ n ih =>
    intro a k hk htr hexc
    cases k with
    | zero =>
      simp only [Nat.add_zero] at hexc
      simp [apiGo, hexc]
    | succ m =>
      have h0 : (outcomes (a + 0)).transient = true := htr 0 (by omega)
      simp only [Nat.add_zero] at h0
      have hn : n ≠ 0 := by omega
      have step : apiGo outcomes (n + 1) a = apiGo outcomes n (a + 1) := by
        simp only [apiGo]
        cases ho : outcomes a with
        | resp s' => rw [ho] at h0; simp [Attempt.transient] at h0
        | exc => rw [ho] at h0; simp [Attempt.transient] at h0
        | timeout => simp [hn]
        | connError => simp [hn]
      rw [step]
      have := ih (a + 1) m (by omega)
        (fun j hj => by
          have := htr (j + 1) (by omega)
          simpa [Nat.add_assoc, Nat.add_comm 1 j] using this)
        (by simpa [Nat.add_assoc, Nat.add_comm 1 m] using hexc)
      simpa [Nat.add_assoc, Nat.add_comm 1 m] using this

theorem apiGo_all_transient (outcomes : Nat → Attempt) :
    ∀ fuel a, 0 < fuel →
      (∀ j, j < fuel → (outcomes (a + j)).transient = true) →
      apiGo outcomes fuel a = (none, a + fuel - 1) := by
  intro fuel
  induction fuel with
  | zero => intro a h; omega
  | succ n ih =>
    intro a _ htr
    have h0 : (outcomes (a + 0)).transient = true := htr 0 (by omega)
    simp only [Nat.add_zero] at h0
    by_cases hn : n = 0
    · subst hn
      simp only [apiGo]
      cases ho : outcomes a with
      | resp s' => rw [ho] at h0; simp [Attempt.transient] at h0
      | exc => rw [ho] at h0; simp [Attempt.transient] at h0
      | timeout => simp
      | connError => simp
    · have step : apiGo outcomes (n + 1) a = apiGo outcomes n (a + 1) := by
        simp only [apiGo]
        cases ho : outcomes a with
        | resp s' => rw [ho] at h0; simp [Attempt.transient] at h0
        | exc => rw [ho] at h0; simp [Attempt.transient] at h0
        | timeout => simp [hn]
        | connError => simp [hn]
      rw [step]
      have := ih (a + 1) (by omega)
        (fun j hj => by
          have := htr (j + 1) (by omega)
          simpa [Nat.add_assoc, Nat.add_comm 1 j] using this)
      rw [this]
      have h2 : a + 1 + n - 1 = a + (n + 1) - 1 := by omega
      rw [h2]

end Common

/-- C4: `make_api_request` retries only when the attempt raises a timeout
or a connection-establishment error; any received HTTP response (any
status code, 4xx/5xx included) is returned to the caller immediately from
the attempt that received it with no further retry; a non-network
exception also stops immediately (returning `None`); and the number of
attempts made never exceeds the `retry_count` budget. -/
theorem make_api_request_retry_policy :
    (∀ outcomes retry_count, (Common.make_api_request outcomes retry_count).2 ≤ retry_count) ∧
    (∀ outcomes retry_count k s, 1 ≤ k → k ≤ retry_count →
      (∀ j, 1 ≤ j → j < k → (outcomes j).transient = true) →
      outcomes k = .resp s →
      Common.make_api_request outcomes retry_count = (some s, k)) ∧
    (∀ outcomes retry_count k, 1 ≤ k → k ≤ retry_count →
      (∀ j, 1 ≤ j → j < k → (outcomes j).transient = true) →
      outcomes k = .exc →
      Common.make_api_request outcomes retry_count = (none, k)) := by
  refine ⟨?_, ?_, ?_⟩
  · intro outcomes rc
    have := Common.apiGo_attempts_le outcomes rc 1
    simpa [Common.make_api_request] using (by omega : (Common.apiGo outcomes rc 1).2 ≤ 1 + rc - 1 → (Common.apiGo outcomes rc 1).2 ≤ rc) this
  · intro outcomes rc k s hk1 hkrc htr hresp
    have := Common.apiGo_resp outcomes rc 1 (k - 1) s (by omega)
      (fun j hj => by
        have := htr (1 + j) (by omega) (by omega)
        simpa using this)
      (by
        have : 1 + (k - 1) = k := by omega
        rw [this]; exact hresp)
    have hk : 1 + (k - 1) = k := by omega
    rw [hk] at this
    simpa [Common.make_api_request] using this
  · intro outcomes rc k hk1 hkrc htr hexc
    have := Common.apiGo_exc outcomes rc 1 (k - 1) (by omega)
      (fun j hj => by
        have := htr (1 + j) (by omega) (by omega)
        simpa using this)
      (by
        have : 1 + (k - 1) = k := by omega
        rw [this]; exact hexc)
    have hk : 1 + (k - 1) = k := by omega
    rw [hk] at this
    simpa [Common.make_api_request] using this

/-- Witness for C4 at concrete inputs: with a budget of 3 and outcomes
(timeout, 500-response, _), the executor stops at attempt 2 returning the
500 response; with outcomes (timeout, other-exception, _) it stops at
attempt 2 returning `None`; attempts stay within budget. -/
theorem make_api_request_retry_policy_witness :
    Common.make_api_request
        (fun k => if k = 1 then .timeout else .resp 500) 3 = (some 500, 2) ∧
    Common.make_api_request
        (fun k => if k = 1 then .timeout else .exc) 3 = (none, 2) ∧
    (Common.make_api_request (fun _ => .timeout) 3).2 ≤ 3 := by
  refine ⟨?_, ?_, ?_⟩
  · exact make_api_request_retry_policy.2.1
      (fun k => if k = 1 then .timeout else .resp 500) 3 2 500
      (by decide) (by decide)
      (fun j h1 h2 => by interval_cases j; decide)
      (by decide)
  · exact make_api_request_retry_policy.2.2
      (fun k => if k = 1 then .timeout else .exc) 3 2
      (by decide) (by decide)
      (fun j h1 h2 => by interval_cases j; decide)
      (by decide)
  · exact make_api_request_retry_policy.1 (fun _ => .timeout) 3

/-- C5 counterexample: the claim says exhausted transient failures return a
`TransientFailure` value distinguishable from the `FatalError` value of a
non-network exception.  In the code both paths `return None`: with every
attempt timing out the result equals the result of an immediate
non-network exception — the caller cannot tell them apart. -/
theorem make_api_request_failures_indistinguishable :
    (Common.make_api_request (fun _ => .timeout) 3).1 =
      (Common.make_api_request (fun _ => .exc) 3).1 ∧
    (Common.make_api_request (fun _ => .timeout) 3).1 = none := by
  constructor <;> rfl

/-- C5 amended: after exhausting its attempt budget on transient network
failures `make_api_request` returns `None`, and a non-network exception
also makes it return `None` — the two failure outcomes are the same value,
not distinct ones. -/
theorem make_api_request_failures_both_none :
    (∀ outcomes retry_count, 1 ≤ retry_count →
      (∀ j, 1 ≤ j → j ≤ retry_count → (outcomes j).transient = true) →
      (Common.make_api_request outcomes retry_count).1 = none) ∧
    (∀ outcomes retry_count k, 1 ≤ k → k ≤ retry_count →
      (∀ j, 1 ≤ j → j < k → (outcomes j).transient = true) →
      outcomes k = .exc →
      (Common.make_api_request outcomes retry_count).1 = none) := by
  constructor
  · intro outcomes rc hrc htr
    have := Common.apiGo_all_transient outcomes rc 1 (by omega)
      (fun j hj => by
        have := htr (1 + j) (by omega) (by omega)
        simpa using this)
    simp [Common.make_api_request, this]
  · intro outcomes rc k hk1 hkrc htr hexc
    have := make_api_request_retry_policy.2.2 outcomes rc k hk1 hkrc htr hexc
    simp [this]

/-- Witness for C5 amended: three timeouts with budget 3 give `None`; a
first-attempt non-network exception also gives `None`. -/
theorem make_api_request_failures_both_none_witness :
    (Common.make_api_request (fun _ => .timeout) 3).1 = none ∧
    (Common.make_api_request (fun _ => .exc) 3).1 = none := by
  constructor
  · exact make_api_request_failures_both_none.1 (fun _ => .timeout) 3 (by decide)
      (fun j h1 h2 => rfl)
  · exact make_api_request_failures_both_none.2 (fun _ => .exc) 3 1 (by decide) (by decide)
      (fun j h1 h2 => by omega)
      (by decide)

/-- C6 counterexample: the claim quantifies over every list of requested
ports, but for the empty list `scan_ports` constructs
`ThreadPoolExecutor(max_workers=min(max_threads, 0))`, which raises
`ValueError` — it does not return the (empty) mapping. -/
theorem scan_ports_empty_list_raises :
    Scan.PortScanner_scan_ports Scan.probeClosed 20 "10.0.0.1" [] = .error () ∧
    Scan.PortScanner_scan_ports Scan.probeClosed 20 "10.0.0.1" [] ≠
      .ok ([] : List (Nat × Bool)) := by
  constructor
  · rfl
  · intro h
    simp [Scan.PortScanner_scan_ports] at h

/-- C6 amended: for every host and every NON-EMPTY list of requested
ports (and a positive thread bound), `scan_ports` returns a mapping whose
key set is exactly the set of requested ports, each appearing exactly
once, mapped to `false` when its probe failed or raised; and for every
hosts mapping given to `scan_hosts`, every input host appears in the
result, each host's entry depending only on its own (host, ports) pair,
so one host's failing probes cannot remove or alter another host's or
port's entry. -/
theorem scan_ports_complete :
    (∀ (probe : Scan.ProbeEnv) (mt : Nat) (host : String) (ports : List Nat),
      ports ≠ [] → mt ≠ 0 →
      ∃ m, Scan.PortScanner_scan_ports probe mt host ports = .ok m ∧
        (m.map Prod.fst).Nodup ∧
        (∀ p, p ∈ m.map Prod.fst ↔ p ∈ ports) ∧
        (∀ p b, (p, b) ∈ m → b = Scan.portEntry probe host p) ∧
        (∀ p b, (p, b) ∈ m →
          Scan.PortScanner_scan_port probe host p = .error () → b = false)) ∧
    (∀ (probe : Scan.ProbeEnv) (mt : Nat) (hosts : List (String × List Nat)),
      mt ≠ 0 →
      ∃ r, Scan.PortScanner_scan_hosts probe mt hosts = .ok r ∧
        r.map Prod.fst = hosts.map Prod.fst ∧
        r = hosts.map (fun hp =>
          (hp.1, match Scan.PortScanner_scan_ports probe mt hp.1 hp.2 with
                 | .ok m => m
                 | .error _ => []))) := by
  constructor
  · intro probe mt host ports hne hmt
    have hmin : min mt ports.length ≠ 0 := by
      have : ports.length ≠ 0 := by
        intro h; exact hne (List.eq_nil_of_length_eq_zero h)
      omega
    refine ⟨ports.dedup.map fun p => (p, Scan.portEntry probe host p), ?_, ?_, ?_, ?_, ?_⟩
    · simp [Scan.PortScanner_scan_ports, hmin]
    · have : (ports.dedup.map fun p => (p, Scan.portEntry probe host p)).map Prod.fst
          = ports.dedup := by
        simp [Function.comp_def]
      rw [this]; exact ports.nodup_dedup
    · intro p
      simp [List.mem_dedup]
    · intro p b hm
      simp only [List.mem_map] at hm
      obtain ⟨q, _, hq⟩ := hm
      cases hq
      rfl
    · intro p b hm herr
      simp only [List.mem_map] at hm
      obtain ⟨q, _, hq⟩ := hm
      cases hq
      simp [Scan.portEntry, herr]
  · intro probe mt hosts hmt
    refine ⟨_, ?_, ?_, rfl⟩
    · simp [Scan.PortScanner_scan_hosts, hmt]
    · simp

/-- Witness for C6 amended at a concrete input: scanning ports
[22, 80, 22] on one host with every probe closed yields the deduplicated
complete mapping, and a two-host scan (one host with an empty, hence
failing, port list) still lists both hosts. -/
theorem scan_ports_complete_witness :
    (∃ m, Scan.PortScanner_scan_ports Scan.probeClosed 20 "10.0.0.1" [22, 80, 22] = .ok m ∧
      (m.map Prod.fst).Nodup ∧
      (∀ p, p ∈ m.map Prod.fst ↔ p ∈ [22, 80, 22]) ∧
      (∀ p b, (p, b) ∈ m → b = Scan.portEntry Scan.probeClosed "10.0.0.1" p) ∧
      (∀ p b, (p, b) ∈ m →
        Scan.PortScanner_scan_port Scan.probeClosed "10.0.0.1" p = .error () → b = false)) ∧
    (∃ r, Scan.PortScanner_scan_hosts Scan.probeClosed 20
        [("10.0.0.1", [22]), ("10.0.0.2", [])] = .ok r ∧
      r.map Prod.fst = ["10.0.0.1", "10.0.0.2"] ∧
      r = [("10.0.0.1", [(22, false)]), ("10.0.0.2", [])]) := by
  constructor
  · exact scan_ports_complete.1 Scan.probeClosed 20 "10.0.0.1" [22, 80, 22]
      (by decide) (by decide)
  · obtain ⟨r, h1, h2, h3⟩ := scan_ports_complete.2 Scan.probeClosed 20
      [("10.0.0.1", [22]), ("10.0.0.2", [])] (by decide)
    refine ⟨r, h1, by simpa using h2, ?_⟩
    rw [h3]
    rfl

/-- C7 counterexample: `PortScanner.scan_port` catches only
`(socket.gaierror, socket.error)`; with the probe behaviour CPython
exhibits for the out-of-range port 70000 (a raised `OverflowError`, not a
`socket.error`) the exception propagates to the caller instead of
yielding `false`. -/
theorem scan_port_raises_on_non_socket_error :
    Scan.PortScanner_scan_port Scan.probeClosed "10.0.0.1" 70000 = .error () := by
  rfl

/-- C7 amended: `NetworkScanner.ping_host` and
`PortScanningIntegration.scan_port` catch every exception and never raise
to their caller (established connection gives `true`, everything else
`false`); `PortScanner.scan_port` collapses every socket-level failure
(refused, timeout, unreachable, DNS failure) to `false` but propagates a
non-socket exception, such as CPython's error for an out-of-range port,
to its caller (where `scan_ports` catches it and records `false`). -/
theorem probe_exception_behaviour :
    (∀ (probe : Scan.ProbeEnv) (ip : String),
      ∃ b, Scan.NetworkScanner_ping_host probe ip = .ok b) ∧
    (∀ (probe : Scan.ProbeEnv) (host : String) (port : Nat),
      ∃ b, Scan.PSI_scan_port probe host port = .ok b) ∧
    (∀ (probe : Scan.ProbeEnv) (host : String) (port : Nat),
      probe host port = .sockErr →
      Scan.PortScanner_scan_port probe host port = .ok false) ∧
    (∀ (probe : Scan.ProbeEnv) (host : String) (port : Nat),
      probe host port = .conn 0 →
      Scan.PortScanner_scan_port probe host port = .ok true) ∧
    (∀ (probe : Scan.ProbeEnv) (host : String) (port : Nat),
      probe host port = .otherErr →
      Scan.PortScanner_scan_port probe host port = .error () ∧
      (∀ mt ports, min mt ports.length ≠ 0 → port ∈ ports →
        ∃ m, Scan.PortScanner_scan_ports probe mt host ports = .ok m ∧ (port, false) ∈ m)) := by
  refine ⟨?_, ?_, ?_, ?_, ?_⟩
  · intro probe ip
    unfold Scan.NetworkScanner_ping_host
    cases h22 : probe ip 22 with
    | conn n =>
      cases n with
      | zero => exact ⟨true, rfl⟩
      | succ n' =>
        cases h80 : probe ip 80 with
        | conn n2 =>
          cases n2 with
          | zero => exact ⟨true, rfl⟩
          | succ n2' =>
            cases h443 : probe ip 443 with
            | conn n3 => exact ⟨(n3 == 0), rfl⟩
            | sockErr => exact ⟨false, rfl⟩
            | otherErr => exact ⟨false, rfl⟩
        | sockErr => exact ⟨false, rfl⟩
        | otherErr => exact ⟨false, rfl⟩
    | sockErr => exact ⟨false, rfl⟩
    | otherErr => exact ⟨false, rfl⟩
  · intro probe host port
    unfold Scan.PSI_scan_port
    cases h : probe host port with
    | conn n => exact ⟨(n == 0), rfl⟩
    | sockErr => exact ⟨false, rfl⟩
    | otherErr => exact ⟨false, rfl⟩
  · intro probe host port h
    simp [Scan.PortScanner_scan_port, h]
  · intro probe host port h
    simp [Scan.PortScanner_scan_port, h]
  · intro probe host port h
    refine ⟨by simp [Scan.PortScanner_scan_port, h], ?_⟩
    intro mt ports hmin hmem
    refine ⟨ports.dedup.map fun p => (p, Scan.portEntry probe host p),
      by simp [Scan.PortScanner_scan_ports, hmin], ?_⟩
    simp only [List.mem_map]
    exact ⟨port, by simpa [List.mem_dedup] using hmem,
      by simp [Scan.portEntry, Scan.PortScanner_scan_port, h]⟩

/-- Witness for C7 amended at concrete inputs: a DNS-failing host pings
`false` without raising; the integration scanner returns `false` on a
raised error; `scan_port` yields `false` on a socket error and `true` on
an established connection; and on the CPython out-of-range behaviour at
port 70000 it raises while `scan_ports` records `(70000, false)`. -/
theorem probe_exception_behaviour_witness :
    (∃ b, Scan.NetworkScanner_ping_host (fun _ _ => .sockErr) "bad.host" = .ok b) ∧
    (∃ b, Scan.PSI_scan_port (fun _ _ => .otherErr) "10.0.0.1" 70000 = .ok b) ∧
    Scan.PortScanner_scan_port (fun _ _ => .sockErr) "10.0.0.1" 22 = .ok false ∧
    Scan.PortScanner_scan_port (fun _ _ => .conn 0) "10.0.0.1" 22 = .ok true ∧
    (Scan.PortScanner_scan_port Scan.probeClosed "10.0.0.1" 70000 = .error () ∧
      ∃ m, Scan.PortScanner_scan_ports Scan.probeClosed 20 "10.0.0.1" [70000] = .ok m ∧
        (70000, false) ∈ m) := by
  refine ⟨?_, ?_, ?_, ?_, ?_⟩
  · exact probe_exception_behaviour.1 (fun _ _ => .sockErr) "bad.host"
  · exact probe_exception_behaviour.2.1 (fun _ _ => .otherErr) "10.0.0.1" 70000
  · exact probe_exception_behaviour.2.2.1 (fun _ _ => .sockErr) "10.0.0.1" 22 rfl
  · exact probe_exception_behaviour.2.2.2.1 (fun _ _ => .conn 0) "10.0.0.1" 22 rfl
  · have h := probe_exception_behaviour.2.2.2.2 Scan.probeClosed "10.0.0.1" 70000 rfl
    exact ⟨h.1, h.2 20 [70000] (by decide) (by decide)⟩

/-- C10: for the empty list of requested ports `scan_ports` raises (the
worker pool would get `min(max_threads, 0) = 0` workers, which
`ThreadPoolExecutor` rejects) instead of returning the empty mapping,
whatever the probe environment and thread bound; and a host handed to
`scan_hosts` with an empty port list ends up mapped to the empty result
produced by that exception path. -/
theorem scan_ports_empty_requires_nonempty :
    (∀ (probe : Scan.ProbeEnv) (mt : Nat) (host : String),
      Scan.PortScanner_scan_ports probe mt host [] = .error ()) ∧
    (∀ (probe : Scan.ProbeEnv) (host : String),
      Scan.PortScanner_scan_hosts probe 20 [(host, [])] = .ok [(host, [])]) := by
  constructor
  · intro probe mt host
    simp [Scan.PortScanner_scan_ports]
  · intro probe host
    simp [Scan.PortScanner_scan_hosts, Scan.PortScanner_scan_ports]

example : SyncMain.parse_ports_from_string "22,80,443,3000-3002" =
    [22, 80, 443, 3000, 3001, 3002] := by decide

example : SyncMain.parse_ports_from_string "22, 80,22" = [22, 80] := by decide

/-- C8 counterexample: for the unparseable ports specification `"abc"` the
parser does not skip the field (which would leave no ports to scan from
it) — its `except` clause substitutes the default list `[22, 80, 443]`,
and those ports are then scanned. -/
theorem parse_ports_fallback_not_skip :
    SyncMain.parse_ports_from_string "abc" = [22, 80, 443] ∧
    SyncMain.parse_ports_from_string "abc" ≠ [] := by
  constructor
  · decide
  · decide

theorem truthyS_some_ne_empty {o : Option String} {s : String}
    (h : NbSync.truthyS o = some s) : s ≠ "" := by
  cases o with
  | none => simp [NbSync.truthyS] at h
  | some t =>
    by_cases ht : t = "" <;> simp [NbSync.truthyS, ht] at h
    subst h; exact ht

theorem ensure_ip_invalid_no_requests (ipValid : String → Bool) (env : NbSync.Env)
    (vm_id iface_id : Nat) (ip : String)
    (hval : NbSync.validate_ip_address ipValid ip = false) :
    NbSync.ensure_ip_on_interface_and_vm ipValid env vm_id iface_id ip = (none, []) := by
  by_cases hemp : ip = "" <;>
    simp [NbSync.ensure_ip_on_interface_and_vm, hemp, hval]

theorem afterVm_invalid_ip (ipValid : String → Bool) (env : NbSync.Env)
    (vm : NbSync.VMDict) (vm_id : Nat) (acc : List NbSync.Req)
    (h : ∀ ip, NbSync.truthyS vm.ip_addr = some ip →
      NbSync.validate_ip_address ipValid ip = false) :
    NbSync.afterVm ipValid env vm vm_id acc =
      NbSync.afterVm ipValid env { vm with ip_addr := none } vm_id acc := by
  simp only [NbSync.afterVm]
  cases hres : (NbSync.ensure_vm_interface_with_mac env vm_id "eth0" vm.mac_addr).1 with
  | none => rfl
  | some ifid =>
    cases hip : NbSync.truthyS vm.ip_addr with
    | none => rfl
    | some ip =>
      by_cases hz : ifid ≠ 0
      · simp only [hz, if_true]
        rw [ensure_ip_invalid_no_requests ipValid env vm_id ifid ip (h ip hip)]
        simp [NbSync.truthyS]
      · simp [hz, NbSync.truthyS]

theorem get_or_create_vm_invalid_ip (ipValid : String → Bool) (env : NbSync.Env)
    (cluster_id : Nat) (vm : NbSync.VMDict)
    (h : ∀ ip, NbSync.truthyS vm.ip_addr = some ip →
      NbSync.validate_ip_address ipValid ip = false) :
    NbSync.get_or_create_vm ipValid env cluster_id vm =
      NbSync.get_or_create_vm ipValid env cluster_id { vm with ip_addr := none } := by
  simp only [NbSync.get_or_create_vm]
  cases hs : env.vmSearch vm.name cluster_id with
  | none => rfl
  | some r =>
    by_cases hst : r.status_code ≠ 200
    · simp [hst]
    · simp only [hst, if_false]
      cases hh : r.ids.head? with
      | some vid =>
        exact afterVm_invalid_ip ipValid env vm vid _ h
      | none =>
        cases hc : env.vmCreate vm.name cluster_id vm.status vm.description with
        | none => rfl
        | some c =>
          by_cases hok : c.status_code = 200 ∨ c.status_code = 201
          · simp only [hok, if_true]
            exact afterVm_invalid_ip ipValid env vm c.id _ h
          · simp [hok]

/-- C8 amended: a malformed IP string is caught before any catalog call —
the IP stage for that entity issues no request and returns `None`, and
the rest of that entity's reconciliation (and every other entity) behaves
exactly as if the entity had no IP; an unparseable ports-to-scan
specification does not abort the run, but instead of skipping the field
the parser substitutes the default port list `[22, 80, 443]`, which is
then scanned. -/
theorem validation_failures_are_local :
    (∀ (ipValid : String → Bool) (env : NbSync.Env) (vm_id iface_id : Nat) (ip : String),
      NbSync.validate_ip_address ipValid ip = false →
      NbSync.ensure_ip_on_interface_and_vm ipValid env vm_id iface_id ip = (none, [])) ∧
    (∀ (ipValid : String → Bool) (env : NbSync.Env) (cluster_id : Nat) (vm : NbSync.VMDict),
      (∀ ip, NbSync.truthyS vm.ip_addr = some ip →
        NbSync.validate_ip_address ipValid ip = false) →
      NbSync.get_or_create_vm ipValid env cluster_id vm =
        NbSync.get_or_create_vm ipValid env cluster_id { vm with ip_addr := none }) ∧
    (∀ s : String, (SyncMain.splitOnChar ',' s.toList).mapM SyncMain.parsePart = none →
      SyncMain.parse_ports_from_string s = [22, 80, 443]) := by
  refine ⟨ensure_ip_invalid_no_requests, get_or_create_vm_invalid_ip, ?_⟩
  intro s h
  unfold SyncMain.parse_ports_from_string
  rw [h]

/-- Witness for C8 amended at concrete inputs: the malformed IP
`"999.999.1.1"` (rejected by the validator) produces no request and the
surrounding reconciliation equals the no-IP run; the malformed ports
string `"abc"` parses to the default list. -/
theorem validation_failures_are_local_witness :
    NbSync.ensure_ip_on_interface_and_vm (fun _ => false)
      { vmSearch := fun _ _ => none, vmCreate := fun _ _ _ _ => none,
        ifaceSearch := fun _ _ => none, ifaceCreate := fun _ _ _ => none,
        macSearch := fun _ _ => none, macCreate := fun _ _ => none,
        ifaceDetail := fun _ => none, ipSearch := fun _ => none,
        ipCreate := fun _ => none, ipPatchAssign := fun _ _ => none,
        vmPatchPrimaryIp := fun _ _ => none } 7 3 "999.999.1.1" = (none, []) ∧
    SyncMain.parse_ports_from_string "abc" = [22, 80, 443] := by
  constructor
  · exact validation_failures_are_local.1 (fun _ => false) _ 7 3 "999.999.1.1" rfl
  · exact validation_failures_are_local.2.2 "abc" (by decide)

namespace NbSync

theorem primaryMacPhase_fst (env : Env) (iface_id mac_id : Nat) (acc : List Req) :
    (primaryMacPhase env iface_id mac_id acc).1 = some iface_id := by
  unfold primaryMacPhase
  cases env.ifaceDetail iface_id with
  | none => rfl
  | some r =>
    by_cases h : r.status_code ≠ 200
    · simp [h]
    · by_cases h2 : r.primary_mac_id = some mac_id <;> simp [h, h2]

theorem macPhase_fst (env : Env) (m : String) (iface_id : Nat) (acc : List Req) :
    (macPhase env m iface_id acc).1 = some iface_id := by
  unfold macPhase
  cases env.macSearch m iface_id with
  | none => rfl
  | some r =>
    by_cases h : r.status_code ≠ 200
    · simp [h]
    · simp only [h, if_false]
      cases r.ids.head? with
      | some mid => exact primaryMacPhase_fst env iface_id mid _
      | none =>
        cases env.macCreate m iface_id with
        | none => rfl
        | some c =>
          by_cases hc : c.status_code = 200 ∨ c.status_code = 201
          · simp only [hc, if_true]
            exact primaryMacPhase_fst env iface_id c.id _
          · simp [hc]

theorem ensure_iface_failed_trace (env : Env) (vm_id : Nat) (eth_name : String)
    (mac : Option String)
    (hfail : (ensure_vm_interface_with_mac env vm_id eth_name mac).1 = none) :
    ∀ q ∈ (ensure_vm_interface_with_mac env vm_id eth_name mac).2,
      q.isDependentStage = false := by
  cases htr : truthyS mac with
  | none =>
    simp [ensure_vm_interface_with_mac, htr]
  | some m =>
    cases hs : env.ifaceSearch vm_id eth_name with
    | none =>
      simp [ensure_vm_interface_with_mac, htr, hs, Req.isDependentStage,
        Req.isMacBinding, Req.isIpStage, Req.isService]
    | some r =>
      by_cases hst : r.status_code ≠ 200
      · simp [ensure_vm_interface_with_mac, htr, hs, hst, Req.isDependentStage,
          Req.isMacBinding, Req.isIpStage, Req.isService]
      · cases hh : r.ids.head? with
        | some iface_id =>
          exfalso
          simp only [ensure_vm_interface_with_mac, htr, hs, hst, if_false, hh] at hfail
          rw [macPhase_fst] at hfail
          exact Option.some_ne_none _ hfail
        | none =>
          cases hc : env.ifaceCreate vm_id eth_name ("MAC: " ++ m) with
          | none =>
            simp [ensure_vm_interface_with_mac, htr, hs, hst, hh, hc,
              Req.isDependentStage, Req.isMacBinding, Req.isIpStage, Req.isService]
          | some c =>
            by_cases hok : c.status_code = 200 ∨ c.status_code = 201
            · exfalso
              simp only [ensure_vm_interface_with_mac, htr, hs, hst, if_false, hh,
                hc, hok, if_true] at hfail
              rw [macPhase_fst] at hfail
              exact Option.some_ne_none _ hfail
            · simp [ensure_vm_interface_with_mac, htr, hs, hst, hh, hc, hok,
                Req.isDependentStage, Req.isMacBinding, Req.isIpStage, Req.isService]

theorem afterVm_failed_iface_trace (ipValid : String → Bool) (env : Env)
    (vm : VMDict) (vm_id : Nat) (acc : List Req)
    (hacc : ∀ q ∈ acc, q.isDependentStage = false)
    (hfail : (ensure_vm_interface_with_mac env vm_id "eth0" vm.mac_addr).1 = none) :
    ∀ q ∈ (afterVm ipValid env vm vm_id acc).2, q.isDependentStage = false := by
  simp only [afterVm]
  rw [hfail]
  cases hip : truthyS vm.ip_addr <;>
  · intro q hq
    simp only [List.mem_append] at hq
    rcases hq with hq | hq
    · by_cases hupd : (if vm.vcpus ≠ 0 then some vm.vcpus else none).isSome = true ∨
          (if vm.memory_mb ≠ 0 then some vm.memory_mb else none).isSome = true ∨
          (if vm.disk_gb > 0 then some (vm.disk_gb * 1024) else none).isSome = true
      · rw [if_pos hupd] at hq
        simp only [List.mem_append, List.mem_singleton] at hq
        rcases hq with hq | hq
        · exact hacc q hq
        · subst hq; rfl
      · rw [if_neg hupd] at hq
        exact hacc q hq
    · exact ensure_iface_failed_trace env vm_id "eth0" vm.mac_addr hfail q hq

end NbSync

/-- C9: when the interface stage of an entity fails
(`ensure_vm_interface_with_mac` returns no interface id), no MAC-binding,
IP-assignment or service request is issued for that entity — neither
inside the interface stage nor afterwards in `get_or_create_vm` — while
the batch loop of `main` reconciles every sibling entity independently,
each batch entry being exactly the standalone reconciliation of its own
entity. -/
theorem interface_failure_skips_dependents :
    (∀ (env : NbSync.Env) (vm_id : Nat) (eth_name : String) (mac : Option String),
      (NbSync.ensure_vm_interface_with_mac env vm_id eth_name mac).1 = none →
      ∀ q ∈ (NbSync.ensure_vm_interface_with_mac env vm_id eth_name mac).2,
        q.isDependentStage = false) ∧
    (∀ (ipValid : String → Bool) (env : NbSync.Env) (cluster_id : Nat) (vm : NbSync.VMDict),
      (∀ vid, (NbSync.ensure_vm_interface_with_mac env vid "eth0" vm.mac_addr).1 = none) →
      ∀ q ∈ (NbSync.get_or_create_vm ipValid env cluster_id vm).2,
        q.isDependentStage = false) ∧
    (∀ (ipValid : String → Bool) (env : NbSync.Env) (cluster_id : Nat)
        (vms : List NbSync.VMDict) (i : Nat) (h : i < vms.length),
      (NbSync.sync_vms ipValid env cluster_id vms).get
          ⟨i, by simpa [NbSync.sync_vms] using h⟩ =
        NbSync.get_or_create_vm ipValid env cluster_id (vms.get ⟨i, h⟩)) := by
  refine ⟨NbSync.ensure_iface_failed_trace, ?_, ?_⟩
  · intro ipValid env cid vm hfail
    simp only [NbSync.get_or_create_vm]
    cases hs : env.vmSearch vm.name cid with
    | none =>
      intro q hq
      simp only [List.mem_singleton] at hq
      subst hq; rfl
    | some r =>
      dsimp only
      by_cases hst : r.status_code ≠ 200
      · rw [if_pos hst]
        intro q hq
        simp only [List.mem_singleton] at hq
        subst hq; rfl
      · rw [if_neg hst]
        cases hh : r.ids.head? with
        | some vid =>
          dsimp only
          refine NbSync.afterVm_failed_iface_trace ipValid env vm vid _ ?_ (hfail vid)
          intro q hq
          simp only [List.mem_append, List.mem_singleton] at hq
          rcases hq with hq | hq <;> (subst hq; rfl)
        | none =>
          dsimp only
          cases hc : env.vmCreate vm.name cid vm.status vm.description with
          | none =>
            intro q hq
            simp only [List.mem_append, List.mem_singleton] at hq
            rcases hq with hq | hq <;> (subst hq; rfl)
          | some c =>
            dsimp only
            by_cases hok : c.status_code = 200 ∨ c.status_code = 201
            · rw [if_pos hok]
              refine NbSync.afterVm_failed_iface_trace ipValid env vm c.id _ ?_ (hfail c.id)
              intro q hq
              simp only [List.mem_append, List.mem_singleton] at hq
              rcases hq with hq | hq <;> (subst hq; rfl)
            · rw [if_neg hok]
              intro q hq
              simp only [List.mem_append, List.mem_singleton] at hq
              rcases hq with hq | hq <;> (subst hq; rfl)
  · intro ipValid env cid vms i h
    simp [NbSync.sync_vms]

/-- Witness for C9 at concrete inputs: with the interface search failing,
the entity's whole trace contains no MAC-binding, IP or service request,
and the second entry of a two-entity batch equals that entity's
standalone reconciliation. -/
theorem interface_failure_skips_dependents_witness :
    (∀ q ∈ (NbSync.get_or_create_vm (fun _ => true) envIfaceDown 1 vmWeb).2,
      q.isDependentStage = false) ∧
    (NbSync.sync_vms (fun _ => true) envIfaceDown 1 [vmWeb, vmWeb]).get ⟨1, by decide⟩ =
      NbSync.get_or_create_vm (fun _ => true) envIfaceDown 1 vmWeb := by
  constructor
  · exact interface_failure_skips_dependents.2.1 (fun _ => true) envIfaceDown 1 vmWeb
      (fun vid => rfl)
  · exact interface_failure_skips_dependents.2.2 (fun _ => true) envIfaceDown 1
      [vmWeb, vmWeb] 1 (by decide)

/-- C2 counterexample: with the create answered by a 409 conflict,
`get_or_create_vm` returns `False` immediately — the trace shows exactly
one primary-key lookup and no re-run of it after the conflict, contrary
to the claimed retry-lookup-once behaviour. -/
theorem conflict_create_no_relookup :
    NbSync.get_or_create_vm (fun _ => true) env409 1 vmWeb =
      (false, [NbSync.Req.vmSearch "web01" 1,
               NbSync.Req.vmCreate "web01" 1 "active" ""]) ∧
    ((NbSync.get_or_create_vm (fun _ => true) env409 1 vmWeb).2.countP
      (fun q => match q with | NbSync.Req.vmSearch _ _ => true | _ => false)) = 1 := by
  constructor
  · decide
  · decide

/-- C2 amended: a create answered with a conflict (or any non-2xx)
response is surfaced as a failure of that entity — `get_or_create_vm`
returns `False` and `create_discovered_device` returns `None` — with the
create as the final request of the trace and no re-run of the primary-key
lookup. -/
theorem conflict_create_surfaces_failure :
    (∀ (ipValid : String → Bool) (env : NbSync.Env) (cid : Nat) (vm : NbSync.VMDict)
        (c : NbSync.CreateResp),
      env.vmSearch vm.name cid = some ⟨200, []⟩ →
      env.vmCreate vm.name cid vm.status vm.description = some c →
      c.status_code ≠ 200 → c.status_code ≠ 201 →
      NbSync.get_or_create_vm ipValid env cid vm =
        (false, [NbSync.Req.vmSearch vm.name cid,
                 NbSync.Req.vmCreate vm.name cid vm.status vm.description])) ∧
    (∀ (env : Discovered.DEnv) (h : Discovered.HostInfo) (site_id device_type_id : Nat)
        (c : Discovered.DCreateResp),
      (Discovered.get_existing_device env
        (h.name.getD ("host-" ++ Discovered.dotsToDashes h.ip)) h.ip).1 = none →
      env.deviceCreate (h.name.getD ("host-" ++ Discovered.dotsToDashes h.ip))
        device_type_id site_id "active" (Discovered.mkDescription h) = some c →
      c.status_code ≠ 200 → c.status_code ≠ 201 →
      Discovered.create_discovered_device env h site_id device_type_id =
        (none, (Discovered.get_existing_device env
            (h.name.getD ("host-" ++ Discovered.dotsToDashes h.ip)) h.ip).2 ++
          [Discovered.DReq.deviceCreate
            (h.name.getD ("host-" ++ Discovered.dotsToDashes h.ip))
            device_type_id site_id "active" (Discovered.mkDescription h)])) := by
  constructor
  · intro ipValid env cid vm c hs hc h200 h201
    simp [NbSync.get_or_create_vm, hs, hc, h200, h201]
  · intro env h site_id device_type_id c hex hc h200 h201
    simp [Discovered.create_discovered_device, hex, hc, h200, h201]

/-- Witness for C2 amended at concrete inputs: the 409-answered VM create
yields `(False, [search, create])`; the 409-answered device create yields
`None` with the create as the last request. -/
theorem conflict_create_surfaces_failure_witness :
    NbSync.get_or_create_vm (fun _ => false) env409 1 vmWeb =
      (false, [NbSync.Req.vmSearch "web01" 1,
               NbSync.Req.vmCreate "web01" 1 "active" ""]) ∧
    Discovered.create_discovered_device denvConflict hostA 3 4 =
      (none, (Discovered.get_existing_device denvConflict "disc01" "10.0.0.9").2 ++
        [Discovered.DReq.deviceCreate "disc01" 4 3 "active"
          (Discovered.mkDescription hostA)]) := by
  constructor
  · exact conflict_create_surfaces_failure.1 (fun _ => false) env409 1 vmWeb ⟨409, 0⟩
      rfl rfl (by decide) (by decide)
  · exact conflict_create_surfaces_failure.2 denvConflict hostA 3 4 ⟨409, 0⟩
      (by decide) rfl (by decide) (by decide)

namespace Discovered

theorem devByIpFallback_trace (ipo : DIpObj) (acc : List DReq) :
    (devByIpFallback ipo acc).2 = acc := by
  unfold devByIpFallback
  cases ipo.assigned_object with
  | none => rfl
  | some d =>
    by_cases h : typeMentionsDevice ipo.assigned_object_type = true ∧ d ≠ 0 <;> simp [h]

theorem gdbi_trace_shape (env : DEnv) (ip : String) :
    (get_device_by_ip env ip).2 = [DReq.ipAddrSearch ip] ∨
    ∃ aid, (get_device_by_ip env ip).2 = [DReq.ipAddrSearch ip, DReq.ifaceGet aid] := by
  simp only [get_device_by_ip]
  cases hs : env.ipAddrSearch ip with
  | none => exact Or.inl rfl
  | some r =>
    by_cases hst : r.status_code ≠ 200
    · simp [hst]
    · simp only [hst, if_false]
      cases hh : r.results.head? with
      | none => exact Or.inl rfl
      | some ipo =>
        dsimp only
        cases ho : ipo.assigned_object_id with
        | none => rw [devByIpFallback_trace]; exact Or.inl rfl
        | some aid =>
          dsimp only
          by_cases hcond : aid ≠ 0 ∧ ipo.assigned_object_type = some "dcim.interface"
          · rw [if_pos hcond]
            cases hi : env.ifaceGet aid with
            | none => exact Or.inr ⟨aid, rfl⟩
            | some ir =>
              dsimp only
              by_cases h200 : ir.status_code = 200
              · rw [if_pos h200]
                cases hd : ir.device_id with
                | none => rw [devByIpFallback_trace]; exact Or.inr ⟨aid, rfl⟩
                | some d =>
                  dsimp only
                  by_cases hz : d ≠ 0
                  · rw [if_pos hz]; exact Or.inr ⟨aid, rfl⟩
                  · rw [if_neg hz]; rw [devByIpFallback_trace]; exact Or.inr ⟨aid, rfl⟩
              · rw [if_neg h200]; rw [devByIpFallback_trace]; exact Or.inr ⟨aid, rfl⟩
          · rw [if_neg hcond]; rw [devByIpFallback_trace]; exact Or.inl rfl

theorem gdbi_no_create (env : DEnv) (ip : String) :
    ∀ q ∈ (get_device_by_ip env ip).2, q.isCreate = false := by
  rcases gdbi_trace_shape env ip with h | ⟨aid, h⟩ <;>
    (rw [h]; intro q hq; simp only [List.mem_cons, List.mem_singleton,
      List.not_mem_nil, or_false] at hq) <;> first
  | (subst hq; rfl)
  | (rcases hq with hq | hq <;> (subst hq; rfl))

theorem ged_failed_trace (env : DEnv) (device_name ip : String)
    (hfail : (get_existing_device env device_name ip).1 = none) :
    (get_existing_device env device_name ip).2 =
      DReq.deviceSearch device_name :: (get_device_by_ip env ip).2 := by
  simp only [get_existing_device] at hfail ⊢
  cases hds : env.deviceSearch device_name with
  | none => rfl
  | some r =>
    by_cases hst : r.status_code = 200
    · simp only [hds, hst, if_true] at hfail ⊢
      cases hh : r.ids.head? with
      | none => simp [hh]
      | some did => simp [hh] at hfail
    · simp only [hds, hst, if_false] at hfail ⊢
      rfl

theorem ged_no_create (env : DEnv) (device_name ip : String) :
    ∀ q ∈ (get_existing_device env device_name ip).2, q.isCreate = false := by
  simp only [get_existing_device]
  cases hds : env.deviceSearch device_name with
  | none =>
    intro q hq
    simp only [List.mem_append] at hq
    rcases hq with hq | hq
    · simp only [List.mem_singleton] at hq; subst hq; rfl
    · exact gdbi_no_create env ip q hq
  | some r =>
    by_cases hst : r.status_code = 200
    · simp only [hst, if_true]
      cases hh : r.ids.head? with
      | some did =>
        intro q hq
        simp only [List.mem_singleton] at hq
        subst hq; rfl
      | none =>
        intro q hq
        simp only [List.mem_append] at hq
        rcases hq with hq | hq
        · simp only [List.mem_singleton] at hq; subst hq; rfl
        · exact gdbi_no_create env ip q hq
    · simp only [hst, if_false]
      intro q hq
      simp only [List.mem_append] at hq
      rcases hq with hq | hq
      · simp only [List.mem_singleton] at hq; subst hq; rfl
      · exact gdbi_no_create env ip q hq

theorem afterVm_mem_acc (ipValid : String → Bool) (env : NbSync.Env)
    (vm : NbSync.VMDict) (vm_id : Nat) (acc : List NbSync.Req) (q : NbSync.Req)
    (hq : q ∈ acc) : q ∈ (NbSync.afterVm ipValid env vm vm_id acc).2 := by
  simp only [NbSync.afterVm]
  by_cases hupd : (if vm.vcpus ≠ 0 then some vm.vcpus else none).isSome = true ∨
      (if vm.memory_mb ≠ 0 then some vm.memory_mb else none).isSome = true ∨
      (if vm.disk_gb > 0 then some (vm.disk_gb * 1024) else none).isSome = true
  · rw [if_pos hupd]
    cases h1 : (NbSync.ensure_vm_interface_with_mac env vm_id "eth0" vm.mac_addr).1 with
    | none =>
      cases h2 : NbSync.truthyS vm.ip_addr <;> simp [List.mem_append, hq]
    | some ifid =>
      cases h2 : NbSync.truthyS vm.ip_addr with
      | none => simp [List.mem_append, hq]
      | some ip =>
        dsimp only
        by_cases hz : ifid ≠ 0
        · rw [if_pos hz]; simp [List.mem_append, hq]
        · rw [if_neg hz]; simp [List.mem_append, hq]
  · rw [if_neg hupd]
    cases h1 : (NbSync.ensure_vm_interface_with_mac env vm_id "eth0" vm.mac_addr).1 with
    | none =>
      cases h2 : NbSync.truthyS vm.ip_addr <;> simp [List.mem_append, hq]
    | some ifid =>
      cases h2 : NbSync.truthyS vm.ip_addr with
      | none => simp [List.mem_append, hq]
      | some ip =>
        dsimp only
        by_cases hz : ifid ≠ 0
        · rw [if_pos hz]; simp [List.mem_append, hq]
        · rw [if_neg hz]; simp [List.mem_append, hq]

end Discovered

/-- C3 counterexample: `get_or_create_vm` issues its create right after
the single name lookup — no IP-address-assignment lookup appears anywhere
before (or after) the create — even though the catalog (`envC3`) holds
the entity's IP `10.0.0.5` assigned to an existing interface, so the
entity was discoverable under its IP key and a duplicate is created. -/
theorem vm_create_without_ip_lookup :
    (NbSync.get_or_create_vm (fun _ => true) envC3 1 vmWeb).2 =
      [NbSync.Req.vmSearch "web01" 1,
       NbSync.Req.vmCreate "web01" 1 "active" "",
       NbSync.Req.vmPatchResources 42 (some 2) (some 2048) (some 10240),
       NbSync.Req.ifaceSearch 42 "eth0"] ∧
    envC3.ipSearch "10.0.0.5" =
      some ⟨200, [⟨33, "10.0.0.5/24", some "virtualization.vminterface", some 9⟩]⟩ ∧
    NbSync.Req.ipSearch "10.0.0.5" ∉
      (NbSync.get_or_create_vm (fun _ => true) envC3 1 vmWeb).2 := by
  refine ⟨by decide, rfl, by decide⟩

/-- C3 amended: the dual name-and-IP lookup before concluding
non-existence holds for discovered-host devices
(`NetBoxDeviceManager`): a create is issued only after both the
name search and the IP-assignment lookup appear in the trace, and an
entity found under either key has its existing id returned with no create
issued.  VM reconciliation (`get_or_create_vm`), by contrast, concludes
non-existence from the name lookup alone: whenever the name search
returns an empty 200 result, the create request is issued no matter what
any IP-assignment lookup would have found. -/
theorem device_dual_lookup_before_create :
    (∀ (env : Discovered.DEnv) (h : Discovered.HostInfo) (site_id device_type_id : Nat),
      ((Discovered.create_discovered_device env h site_id device_type_id).2.any
        (fun q => q.isCreate)) = true →
      Discovered.DReq.deviceSearch (h.name.getD ("host-" ++ Discovered.dotsToDashes h.ip)) ∈
        (Discovered.create_discovered_device env h site_id device_type_id).2 ∧
      Discovered.DReq.ipAddrSearch h.ip ∈
        (Discovered.create_discovered_device env h site_id device_type_id).2) ∧
    (∀ (env : Discovered.DEnv) (h : Discovered.HostInfo) (site_id device_type_id did : Nat)
        (r : Discovered.DListResp),
      env.deviceSearch (h.name.getD ("host-" ++ Discovered.dotsToDashes h.ip)) = some r →
      r.status_code = 200 → r.ids.head? = some did →
      Discovered.create_discovered_device env h site_id device_type_id =
        (some did, [Discovered.DReq.deviceSearch
          (h.name.getD ("host-" ++ Discovered.dotsToDashes h.ip))])) ∧
    (∀ (env : Discovered.DEnv) (h : Discovered.HostInfo) (site_id device_type_id did : Nat),
      env.deviceSearch (h.name.getD ("host-" ++ Discovered.dotsToDashes h.ip)) =
        some ⟨200, []⟩ →
      (Discovered.get_device_by_ip env h.ip).1 = some did →
      Discovered.create_discovered_device env h site_id device_type_id =
        (some did, Discovered.DReq.deviceSearch
            (h.name.getD ("host-" ++ Discovered.dotsToDashes h.ip)) ::
          (Discovered.get_device_by_ip env h.ip).2) ∧
      ∀ q ∈ (Discovered.create_discovered_device env h site_id device_type_id).2,
        q.isCreate = false) ∧
    (∀ (ipValid : String → Bool) (env : NbSync.Env) (cluster_id : Nat) (vm : NbSync.VMDict),
      env.vmSearch vm.name cluster_id = some ⟨200, []⟩ →
      NbSync.Req.vmCreate vm.name cluster_id vm.status vm.description ∈
        (NbSync.get_or_create_vm ipValid env cluster_id vm).2) := by
  refine ⟨?_, ?_, ?_, ?_⟩
  · intro env h site_id device_type_id hany
    simp only [Discovered.create_discovered_device] at hany ⊢
    cases hex : (Discovered.get_existing_device env
        (h.name.getD ("host-" ++ Discovered.dotsToDashes h.ip)) h.ip).1 with
    | some did =>
      exfalso
      simp only [hex, List.any_eq_true] at hany
      obtain ⟨q, hq, hc⟩ := hany
      rw [Discovered.ged_no_create env _ h.ip q hq] at hc
      exact Bool.false_ne_true hc
    | none =>
      simp only [hex]
      rw [Discovered.ged_failed_trace env _ h.ip hex]
      cases hc : env.deviceCreate (h.name.getD ("host-" ++ Discovered.dotsToDashes h.ip))
          device_type_id site_id "active" (Discovered.mkDescription h) with
      | none =>
        constructor
        · simp
        · rcases Discovered.gdbi_trace_shape env h.ip with hsh | ⟨aid, hsh⟩ <;>
            simp [hsh]
      | some c =>
        dsimp only
        by_cases hok : c.status_code = 200 ∨ c.status_code = 201 <;>
          [rw [if_pos hok]; rw [if_neg hok]] <;>
          (constructor
           · simp
           · rcases Discovered.gdbi_trace_shape env h.ip with hsh | ⟨aid, hsh⟩ <;>
               simp [hsh])
  · intro env h site_id device_type_id did r hds hst hh
    simp [Discovered.create_discovered_device, Discovered.get_existing_device,
      hds, hst, hh]
  · intro env h site_id device_type_id did hds hip
    have hged : Discovered.get_existing_device env
        (h.name.getD ("host-" ++ Discovered.dotsToDashes h.ip)) h.ip =
        (some did, Discovered.DReq.deviceSearch
            (h.name.getD ("host-" ++ Discovered.dotsToDashes h.ip)) ::
          (Discovered.get_device_by_ip env h.ip).2) := by
      simp [Discovered.get_existing_device, hds, hip]
    constructor
    · simp [Discovered.create_discovered_device, hged]
    · simp only [Discovered.create_discovered_device, hged]
      intro q hq
      simp only [List.mem_cons] at hq
      rcases hq with hq | hq
      · subst hq; rfl
      · exact Discovered.gdbi_no_create env h.ip q hq
  · intro ipValid env cid vm hs
    simp only [NbSync.get_or_create_vm, hs]
    cases hc : env.vmCreate vm.name cid vm.status vm.description with
    | none => simp
    | some c =>
      try dsimp only
      by_cases hok : c.status_code = 200 ∨ c.status_code = 201
      · rw [if_pos hok]
        exact Discovered.afterVm_mem_acc ipValid env vm c.id _ _ (by simp)
      · rw [if_neg hok]; simp

/-- Witness for C3 amended at concrete inputs: with a 409-answered create
both lookups precede it; a name hit returns id 7 with a one-request
trace; an IP hit returns id 7 with no create; and a missed VM name search
puts the create into the trace. -/
theorem device_dual_lookup_before_create_witness :
    (Discovered.DReq.deviceSearch "disc01" ∈
        (Discovered.create_discovered_device denvConflict hostA 3 4).2 ∧
      Discovered.DReq.ipAddrSearch "10.0.0.9" ∈
        (Discovered.create_discovered_device denvConflict hostA 3 4).2) ∧
    Discovered.create_discovered_device denvNameHit hostA 3 4 =
      (some 7, [Discovered.DReq.deviceSearch "disc01"]) ∧
    Discovered.create_discovered_device denvIpHit hostA 3 4 =
      (some 7, Discovered.DReq.deviceSearch "disc01" ::
        (Discovered.get_device_by_ip denvIpHit "10.0.0.9").2) ∧
    NbSync.Req.vmCreate "web01" 1 "active" "" ∈
      (NbSync.get_or_create_vm (fun _ => true) env409 1 vmWeb).2 := by
  refine ⟨?_, ?_, ?_, ?_⟩
  · exact device_dual_lookup_before_create.1 denvConflict hostA 3 4 (by decide)
  · exact device_dual_lookup_before_create.2.1 denvNameHit hostA 3 4 7 ⟨200, [7]⟩
      rfl rfl rfl
  · exact (device_dual_lookup_before_create.2.2.1 denvIpHit hostA 3 4 7 rfl rfl).1
  · exact device_dual_lookup_before_create.2.2.2 (fun _ => true) env409 1 vmWeb rfl

/-- C1 counterexample: against the fully converged catalog `envC1` one
reconciliation pass over `vmWeb` still issues three mutating calls — the
unconditional status PATCH, the resources PATCH (sent whenever the fields
are present, not only when they differ), and the `primary_ip4` PATCH —
refuting the claimed zero-mutation idempotence. -/
theorem identical_vm_still_patched :
    ((NbSync.get_or_create_vm (fun _ => true) envC1 1 vmWeb).2.filter
      (fun q => q.isMutating)) =
      [NbSync.Req.vmPatchStatus 7 "active",
       NbSync.Req.vmPatchResources 7 (some 2) (some 2048) (some 10240),
       NbSync.Req.vmPatchPrimaryIp 7 33] ∧
    ((NbSync.get_or_create_vm (fun _ => true) envC1 1 vmWeb).2.filter
      (fun q => q.isMutating)) ≠ [] := by
  constructor
  · decide
  · decide

/-- C1 amended: for a VM that already exists with everything converged
(interface present, MAC bound and primary, IP assigned to the right
interface), one reconciliation pass issues no create (POST) and leaves
the interface, MAC-binding and IP-interface-assignment sub-steps without
mutating calls — but it still PATCHes the status unconditionally, PATCHes
the present resource fields whether or not they differ (the current
values are never read, so no diff is computed), and PATCHes the VM's
`primary_ip4` unconditionally. -/
theorem existing_vm_update_behaviour
    (ipValid : String → Bool) (env : NbSync.Env) (cid vid fid mid iid : Nat)
    (vm : NbSync.VMDict) (m p : String) (ipo : NbSync.IpObj)
    (hs : env.vmSearch vm.name cid = some ⟨200, [vid]⟩)
    (hvc : vm.vcpus ≠ 0)
    (hmac : vm.mac_addr = some m) (hm : m ≠ "")
    (hifs : env.ifaceSearch vid "eth0" = some ⟨200, [fid]⟩)
    (hfid : fid ≠ 0)
    (hmacs : env.macSearch m fid = some ⟨200, [mid]⟩)
    (hdet : env.ifaceDetail fid = some ⟨200, some mid⟩)
    (hip : vm.ip_addr = some p) (hp : p ≠ "")
    (hval : ipValid (NbSync.firstSlashPart p) = true)
    (hips : env.ipSearch p = some ⟨200, [ipo]⟩)
    (haddr : NbSync.firstSlashPart ipo.address = NbSync.firstSlashPart p)
    (htyp : ipo.assigned_object_type = some "virtualization.vminterface")
    (hoid : ipo.assigned_object_id = some fid)
    (hiid : ipo.id = iid)
    (hpatch : env.vmPatchPrimaryIp vid iid = some ⟨200⟩) :
    (NbSync.get_or_create_vm ipValid env cid vm).2 =
      [NbSync.Req.vmSearch vm.name cid,
       NbSync.Req.vmPatchStatus vid vm.status,
       NbSync.Req.vmPatchResources vid (some vm.vcpus)
         (if vm.memory_mb ≠ 0 then some vm.memory_mb else none)
         (if vm.disk_gb > 0 then some (vm.disk_gb * 1024) else none),
       NbSync.Req.ifaceSearch vid "eth0",
       NbSync.Req.macSearch m fid,
       NbSync.Req.ifaceDetail fid,
       NbSync.Req.ipSearch p,
       NbSync.Req.vmPatchPrimaryIp vid iid] ∧
    ((NbSync.get_or_create_vm ipValid env cid vm).2.filter (fun q => q.isMutating)) =
      [NbSync.Req.vmPatchStatus vid vm.status,
       NbSync.Req.vmPatchResources vid (some vm.vcpus)
         (if vm.memory_mb ≠ 0 then some vm.memory_mb else none)
         (if vm.disk_gb > 0 then some (vm.disk_gb * 1024) else none),
       NbSync.Req.vmPatchPrimaryIp vid iid] ∧
    ∀ q ∈ (NbSync.get_or_create_vm ipValid env cid vm).2, q.isCreate = false := by
  have hiface : NbSync.ensure_vm_interface_with_mac env vid "eth0" vm.mac_addr =
      (some fid, [NbSync.Req.ifaceSearch vid "eth0",
                  NbSync.Req.macSearch m fid,
                  NbSync.Req.ifaceDetail fid]) := by
    simp [NbSync.ensure_vm_interface_with_mac, hmac, NbSync.truthyS, hm, hifs,
      NbSync.macPhase, hmacs, NbSync.primaryMacPhase, hdet]
  have hipe : NbSync.ensure_ip_on_interface_and_vm ipValid env vid fid p =
      (some iid, [NbSync.Req.ipSearch p, NbSync.Req.vmPatchPrimaryIp vid iid]) := by
    simp [NbSync.ensure_ip_on_interface_and_vm, hp, NbSync.validate_ip_address, hval,
      hips, NbSync.ipAssignPhase, haddr, htyp, hoid, hiid, hpatch]
  have htrace : NbSync.get_or_create_vm ipValid env cid vm =
      (true,
       [NbSync.Req.vmSearch vm.name cid,
        NbSync.Req.vmPatchStatus vid vm.status,
        NbSync.Req.vmPatchResources vid (some vm.vcpus)
          (if vm.memory_mb ≠ 0 then some vm.memory_mb else none)
          (if vm.disk_gb > 0 then some (vm.disk_gb * 1024) else none),
        NbSync.Req.ifaceSearch vid "eth0",
        NbSync.Req.macSearch m fid,
        NbSync.Req.ifaceDetail fid,
        NbSync.Req.ipSearch p,
        NbSync.Req.vmPatchPrimaryIp vid iid]) := by
    simp [NbSync.get_or_create_vm, hs, NbSync.afterVm, hvc, hiface, hip,
      NbSync.truthyS, hp, hfid, hipe]
  refine ⟨by rw [htrace], ?_, ?_⟩
  · rw [htrace]
    simp [NbSync.Req.isMutating]
  · rw [htrace]
    intro q hq
    simp only [List.mem_cons, List.not_mem_nil, or_false] at hq
    rcases hq with hq | hq | hq | hq | hq | hq | hq | hq <;> (subst hq; rfl)

/-- Witness for C1 amended at concrete inputs: against the converged
oracle `envC1` the pass over `vmWeb` produces exactly the expected trace,
its three unconditional PATCHes, and no create. -/
theorem existing_vm_update_behaviour_witness :
    (NbSync.get_or_create_vm (fun _ => true) envC1 1 vmWeb).2 =
      [NbSync.Req.vmSearch "web01" 1,
       NbSync.Req.vmPatchStatus 7 "active",
       NbSync.Req.vmPatchResources 7 (some 2) (some 2048) (some 10240),
       NbSync.Req.ifaceSearch 7 "eth0",
       NbSync.Req.macSearch "aa:bb:cc:dd:ee:ff" 5,
       NbSync.Req.ifaceDetail 5,
       NbSync.Req.ipSearch "10.0.0.5",
       NbSync.Req.vmPatchPrimaryIp 7 33] ∧
    ∀ q ∈ (NbSync.get_or_create_vm (fun _ => true) envC1 1 vmWeb).2,
      q.isCreate = false := by
  have h := existing_vm_update_behaviour (fun _ => true) envC1 1 7 5 11 33 vmWeb
    "aa:bb:cc:dd:ee:ff" "10.0.0.5"
    ⟨33, "10.0.0.5/32", some "virtualization.vminterface", some 5⟩
    rfl (by decide) rfl (by decide) rfl (by decide) rfl rfl rfl (by decide)
    (by decide) rfl (by decide) rfl rfl rfl rfl
  exact ⟨h.1, h.2.2⟩
